import Mathlib

set_option autoImplicit false
set_option maxRecDepth 2048

/-!
Shallow embedding of `src/streamlit_app.py` (GMC Feed Editor & AI Optimizer).

External collaborators (HTTP transport, BeautifulSoup text extraction, the
OpenAI completion endpoint, the Gmail and Content APIs) are modelled as
oracle functions supplied by the environment; the control flow around them
is translated line by line from the source.  Python exceptions are modelled
with `Except`; observable side effects (outbound calls, sleeps, UI
messages) are collected in explicit effect traces.
-/

deriving instance DecidableEq for Except

namespace GmcEditor

/-- Python truthiness of an optional string: `None` and the empty string are
falsy, every other string is truthy (used for `openai.api_key` and
`EMAIL_TO`, both read from `os.getenv`). -/
def isTruthy : Option String → Bool
  | none => false
  | some s => s != ""

/-- A Python exception class, as far as the embedding distinguishes them.
`nameErr` models `NameError` (an unbound global name). -/
inductive PyErr
  | nameErr
  | other
deriving DecidableEq, Repr

/-- The result object of `requests.get`: `requests.get` returns normally for
every received HTTP response, whatever its status code (it raises only on
timeout or network failure, which the oracle models as `Except.error`). -/
structure HttpResponse where
  status : Nat
  text : String
deriving DecidableEq, Repr

/-- The behaviour of the external collaborators during one call:
`httpGet url` is the outcome of `requests.get(url, timeout=5)` (error =
timeout or network failure; a non-2xx response is a normal `ok` result);
`visibleText html` is what `BeautifulSoup(html).get_text(' ', strip=True)`
extracts; `completion prompt` is the outcome of the ChatCompletion call
including the `res.choices[0].message.content` access (error = the call
raised or the response was malformed). -/
structure Oracle where
  httpGet : String → Except Unit HttpResponse
  visibleText : String → String
  completion : String → Except Unit String

/-- An observable side effect of `ai_optimize`. -/
inductive Effect
  | httpGet (url : String) (timeout : Nat)
  | chatCompletion (model : String) (prompt : String) (maxTokens : Nat)
  | sleep (delay : Rat)
deriving DecidableEq

/-- Module-level value of the global `RATE_LIMIT_DELAY`.  On line 55 of
`streamlit_app.py` the text `RATE_LIMIT_DELAY = float(os.getenv('RATE_LIMIT_DELAY', '0.2'))`
stands on the same physical line as the comment `# Rate limit delay`,
after a backslash that is itself part of the comment; a `#` comments out
the rest of its line in Python, so the assignment never executes and the
global name is never bound (`none`). -/
def moduleRateLimitDelay : Option Rat := none

/-- Module-level configuration read at startup: the OpenAI key from
`OPENAI_API_KEY` and the (never bound, see `moduleRateLimitDelay`) rate
limit delay. -/
structure Globals where
  openaiApiKey : Option String
  rateLimitDelay : Option Rat

/-- Python string slicing `s[:n]`: the first `n` characters of `s` (all of
`s` when it is shorter).  Agrees with `String.take`, see
`pyStrTake_eq_take`. -/
def pyStrTake (s : String) (n : Nat) : String := ⟨s.1.take n⟩

/-- Lines 119-123 of `ai_optimize`: fetch the page with a 5 second timeout,
extract the visible text and keep the first 1000 characters; on any
exception from the fetch, fall back to the empty snippet.  Returns the
snippet together with the fetch effect.  Note that `resp.text` is used
without any status check: a non-2xx response still contributes its body. -/
def fetchSnippet (o : Oracle) (url : String) : String × Effect :=
  (match o.httpGet url with
    | Except.ok resp => pyStrTake (o.visibleText resp.text) 1000
    | Except.error _ => "",
   Effect.httpGet url 5)

/-- A single-quote character, used in the prompt text. -/
def squote : String := String.mk [Char.ofNat 39]

/-- The prompt built on lines 124-127 of `ai_optimize`. -/
def promptFor (field original snippet : String) : String :=
  "Optimize the " ++ field ++ " for GMC. Original: " ++ squote ++ original ++ squote ++
    ". Page snippet: " ++ squote ++ snippet ++ squote ++
    ". Return only the optimized " ++ field ++ "."

/-- Lines 115-138: `ai_optimize(field, original, url)`.  If no OpenAI key is
configured it returns the original value at once with no effects.
Otherwise it fetches a snippet (falling back to the empty string), builds
the prompt, calls the completion API (falling back to the original value on
any exception, including a malformed response), and then executes
`time.sleep(RATE_LIMIT_DELAY)`: when the global `RATE_LIMIT_DELAY` is bound
this sleeps and returns the result, but when it is unbound (the actual
module state, see `moduleRateLimitDelay`) the name lookup raises
`NameError`, which no handler catches, so the exception propagates. -/
def ai_optimize (g : Globals) (o : Oracle) (field original url : String) :
    Except PyErr String × List Effect :=
  if isTruthy g.openaiApiKey = false then
    (Except.ok original, [])
  else
    let fetched := fetchSnippet o url
    let prompt := promptFor field original fetched.1
    let result :=
      match o.completion prompt with
      | Except.ok content => content.trim
      | Except.error _ => original
    match g.rateLimitDelay with
    | some d =>
        (Except.ok result,
         [fetched.2, Effect.chatCompletion "gpt-4" prompt 150, Effect.sleep d])
    | none =>
        (Except.error PyErr.nameErr,
         [fetched.2, Effect.chatCompletion "gpt-4" prompt 150])

/-- Recognises the sleep effect. -/
def isSleep : Effect → Bool
  | Effect.sleep _ => true
  | _ => false

/-- One row of the session feed tables after the normalisation in the fetch
handler (lines 176-180): the six columns the app guarantees, with `id`
renamed to `product_id`.  Cells here are plain strings; pandas snapshots
can additionally hold the missing-value marker NaN in a column that only
some fetched records carry — the cell-accurate model for that case is
`NRow` below, built on `Cell`. -/
structure Row where
  product_id : String
  link : String
  title : String
  description : String
  productType : String
  googleProductCategory : String
deriving DecidableEq, Repr

/-- One row of `df_old.merge(df_new, on='product_id', suffixes=('_old','_new'))`:
the join key once, every other shared column suffixed. -/
structure MergedRow where
  product_id : String
  link_old : String
  title_old : String
  description_old : String
  productType_old : String
  googleProductCategory_old : String
  link_new : String
  title_new : String
  description_new : String
  productType_new : String
  googleProductCategory_new : String
deriving DecidableEq, Repr

/-- The merged row produced for an old row `a` and a new row `b` that share
a product id. -/
def mergeRows (a b : Row) : MergedRow where
  product_id := a.product_id
  link_old := a.link
  title_old := a.title
  description_old := a.description
  productType_old := a.productType
  googleProductCategory_old := a.googleProductCategory
  link_new := b.link
  title_new := b.title
  description_new := b.description
  productType_new := b.productType
  googleProductCategory_new := b.googleProductCategory

/-- `df_old.merge(df_new, on='product_id', ...)`: the inner join on the
product id, keeping the left table order (each old row paired with every
new row carrying the same product id). -/
def mergeOn (df_old df_new : List Row) : List MergedRow :=
  df_old.flatMap fun a =>
    (df_new.filter fun b => b.product_id == a.product_id).map (mergeRows a)

/-- The filter condition on lines 145-148: at least one of the four tracked
attributes (title, description, productType, googleProductCategory)
differs between the old and new side. -/
def rowChanged (r : MergedRow) : Bool :=
  (r.title_old != r.title_new) ||
  (r.description_old != r.description_new) ||
  (r.productType_old != r.productType_new) ||
  (r.googleProductCategory_old != r.googleProductCategory_new)

/-- Lines 143-149: `diff_feed(df_old, df_new)` merges the two tables on
`product_id` and keeps the rows where some tracked attribute changed. -/
def diff_feed (df_old df_new : List Row) : List MergedRow :=
  (mergeOn df_old df_new).filter rowChanged

/-- At least one of the four tracked attributes differs between two rows,
as a proposition. -/
def trackedDiffer (a b : Row) : Prop :=
  a.title ≠ b.title ∨ a.description ≠ b.description ∨
    a.productType ≠ b.productType ∨ a.googleProductCategory ≠ b.googleProductCategory

instance (a b : Row) : Decidable (trackedDiffer a b) := by
  unfold trackedDiffer; infer_instance

/-- One of the four tracked attribute columns. -/
inductive Field
  | title
  | description
  | productType
  | googleProductCategory
deriving DecidableEq, Repr

/-- Overwrite one tracked attribute of a row, leaving the product id and the
link untouched (`df.at[i, f] = v` on one column of one row). -/
def setField (r : Row) (f : Field) (v : String) : Row :=
  match f with
  | Field.title => { r with title := v }
  | Field.description => { r with description := v }
  | Field.productType => { r with productType := v }
  | Field.googleProductCategory => { r with googleProductCategory := v }

/-- `df.at[i, f] = v`: overwrite attribute `f` of row `i` in place; indices
past the end of the table are never produced by the iteration, so the
embedding leaves the table unchanged there. -/
def setAt : List Row → Nat → Field → String → List Row
  | [], _, _, _ => []
  | r :: rs, 0, f, v => setField r f v :: rs
  | r :: rs, Nat.succ n, f, v => r :: setAt rs n f v

/-- A raw product record as returned by `content.products().list(...)`:
each of the six fields the app uses may be absent. -/
structure RawProduct where
  id : Option String
  link : Option String
  title : Option String
  description : Option String
  productType : Option String
  googleProductCategory : Option String
deriving DecidableEq, Repr

/-- Lines 177-180 of the fetch handler: `pd.json_normalize` followed by
`df[col] = df.get(col, '')` for the six columns and the rename of `id` to
`product_id`, restricted to string-valued cells.  This agrees with the
pandas semantics whenever every column is either present on all records or
absent from all of them (a wholly absent column is filled with the empty
string, `df.get` returns the scalar default).  On a partially present
column pandas instead keeps NaN for the records missing it; the
cell-accurate model of the handler is `normalizeProductsN` below. -/
def normalizeProducts (ps : List RawProduct) : List Row :=
  ps.map fun p =>
    { product_id := p.id.getD ""
      link := p.link.getD ""
      title := p.title.getD ""
      description := p.description.getD ""
      productType := p.productType.getD ""
      googleProductCategory := p.googleProductCategory.getD "" }

/-- A pandas cell of the snapshot tables: either a proper string or the
missing-value marker NaN that `pd.json_normalize` leaves where a record
lacks a field of a partially present column. -/
inductive Cell
  | nan
  | str (s : String)
deriving DecidableEq, Repr

/-- Elementwise pandas strict inequality `!=` on cells: every comparison
involving NaN is True — in particular NaN compared with NaN — and two
strings compare as usual. -/
def cellNe : Cell → Cell → Bool
  | Cell.nan, _ => true
  | _, Cell.nan => true
  | Cell.str a, Cell.str b => a != b

/-- A snapshot row with cell-accurate (possibly NaN) values: the same six
columns as `Row`. -/
structure NRow where
  product_id : Cell
  link : Cell
  title : Cell
  description : Cell
  productType : Cell
  googleProductCategory : Cell
deriving DecidableEq, Repr

/-- A merged row of the cell-accurate model, as in `MergedRow`. -/
structure NMergedRow where
  product_id : Cell
  link_old : Cell
  title_old : Cell
  description_old : Cell
  productType_old : Cell
  googleProductCategory_old : Cell
  link_new : Cell
  title_new : Cell
  description_new : Cell
  productType_new : Cell
  googleProductCategory_new : Cell
deriving DecidableEq, Repr

/-- The merged row for an old row `a` and a new row `b` sharing a product
id, cell-accurate version of `mergeRows`. -/
def nMergeRows (a b : NRow) : NMergedRow where
  product_id := a.product_id
  link_old := a.link
  title_old := a.title
  description_old := a.description
  productType_old := a.productType
  googleProductCategory_old := a.googleProductCategory
  link_new := b.link
  title_new := b.title
  description_new := b.description
  productType_new := b.productType
  googleProductCategory_new := b.googleProductCategory

/-- The inner join of line 144 on cell-accurate tables.  Pandas matches NaN
merge keys with each other, so the join condition is plain equality of the
key cells. -/
def nMergeOn (df_old df_new : List NRow) : List NMergedRow :=
  df_old.flatMap fun a =>
    (df_new.filter fun b => b.product_id == a.product_id).map (nMergeRows a)

/-- The filter condition of lines 145-148 on cell-accurate rows: the four
tracked attributes are compared with the elementwise pandas `!=`, under
which a NaN cell differs from everything including itself. -/
def nRowChanged (r : NMergedRow) : Bool :=
  cellNe r.title_old r.title_new ||
  cellNe r.description_old r.description_new ||
  cellNe r.productType_old r.productType_new ||
  cellNe r.googleProductCategory_old r.googleProductCategory_new

/-- Lines 143-149, `diff_feed`, on cell-accurate tables. -/
def diff_feedN (df_old df_new : List NRow) : List NMergedRow :=
  (nMergeOn df_old df_new).filter nRowChanged

/-- Cell-accurate model of lines 177-180 of the fetch handler:
`pd.json_normalize` creates a column when at least one record carries the
field, leaving NaN for the records that lack it; `df[col] = df.get(col, '')`
then replaces only a wholly absent column by the empty string (the scalar
default) and keeps an existing column — NaN cells included — unchanged. -/
def normalizeProductsN (ps : List RawProduct) : List NRow :=
  let col := fun (get : RawProduct → Option String) (p : RawProduct) =>
    if ps.any fun q => (get q).isSome then
      match get p with
      | some v => Cell.str v
      | none => Cell.nan
    else Cell.str ""
  ps.map fun p =>
    { product_id := col RawProduct.id p
      link := col RawProduct.link p
      title := col RawProduct.title p
      description := col RawProduct.description p
      productType := col RawProduct.productType p
      googleProductCategory := col RawProduct.googleProductCategory p }

/-- The two feed snapshots held in `st.session_state`: `df_old` (the
original) and `df` (the working copy); `none` before the first fetch. -/
structure Session where
  df_old : Option (List Row)
  df : Option (List Row)
deriving DecidableEq, Repr

/-- A user-triggered action of the main page.  `fetch` carries the product
list the API returned; `optimize` carries the sequence of single-cell
attribute assignments the optimization loop performed (each iteration
assigns the four tracked fields of one row; an exception mid-loop simply
means the sequence stops early — the in-place mutations so far stand). -/
inductive Action
  | fetch (ps : List RawProduct)
  | optimize (assigns : List (Nat × Field × String))
  | showReport
  | emailReport
  | sync

/-- One action against the session snapshots (lines 175-218).  The fetch
handler stores two copies of the same normalised table into `df_old` and
`df`; the optimization handler mutates attribute cells of the working copy
in place; the report, mail and sync handlers read the snapshots but never
write them.  Handlers of the `if 'df' in st.session_state` block are
no-ops while no feed has been fetched. -/
def step (s : Session) (a : Action) : Session :=
  match a with
  | Action.fetch ps =>
      { df_old := some (normalizeProducts ps), df := some (normalizeProducts ps) }
  | Action.optimize assigns =>
      match s.df with
      | some t =>
          { s with df := some (assigns.foldl (fun t p => setAt t p.1 p.2.1 p.2.2) t) }
      | none => s
  | Action.showReport => s
  | Action.emailReport => s
  | Action.sync => s

/-- A session starts with no snapshots and folds the user actions over
`step`. -/
def runSession (acts : List Action) : Session :=
  acts.foldl step { df_old := none, df := none }

/-- The product ids of an optional snapshot. -/
def pids (t : Option (List Row)) : Option (List String) :=
  t.map (List.map Row.product_id)

/-- Lines 205-218, the `Sync to GMC` loop: issue one patch call per row of
the working snapshot, in order, counting successes; an exception from a
patch call propagates and ends the loop.  `patch` is the oracle for
`content.products().patch(...).execute()` keyed by product id.  The result
pairs the list of product ids for which a patch call was issued (in call
order) with either the final count (success message `Synced count items.`)
or the propagated error (no success message). -/
def syncLoop (patch : String → Except Unit Unit) : List Row → Nat → List String × Except Unit Nat
  | [], count => ([], Except.ok count)
  | r :: rs, count =>
      match patch r.product_id with
      | Except.ok _ =>
          let rest := syncLoop patch rs (count + 1)
          (r.product_id :: rest.1, rest.2)
      | Except.error e => ([r.product_id], Except.error e)

/-- The whole sync action: the loop started with `count = 0`. -/
def syncAction (patch : String → Except Unit Unit) (rows : List Row) :
    List String × Except Unit Nat :=
  syncLoop patch rows 0

/-- An observable step of `send_email`. -/
inductive MailEffect
  | errorMsg (s : String)
  | buildService (api ver creds : String)
  | gmailSend (raw : String)
  | successMsg (s : String)
deriving DecidableEq, Repr

/-- Environment of `send_email`: the `EMAIL_TO` setting, the external MIME
builder plus base64url encoder (html, recipient, subject to raw payload),
and the Gmail send endpoint outcome. -/
structure MailEnv where
  emailTo : Option String
  mimeRaw : String → String → String → String
  sendResult : String → Except Unit Unit

/-- Lines 151-161: `send_email(html, creds)`.  Without a truthy `EMAIL_TO`
it shows the configuration error `EMAIL_TO not set` and returns — no mail
client is built and nothing is sent.  Otherwise it builds the Gmail
service, encodes the message and submits it; an API exception propagates
after the send attempt. -/
def send_email (env : MailEnv) (html creds : String) :
    List MailEffect × Except Unit Unit :=
  if isTruthy env.emailTo = false then
    ([MailEffect.errorMsg "EMAIL_TO not set"], Except.ok ())
  else
    let recipient := env.emailTo.getD ""
    let raw := env.mimeRaw html recipient "GMC QA Report"
    match env.sendResult raw with
    | Except.ok _ =>
        ([MailEffect.buildService "gmail" "v1" creds, MailEffect.gmailSend raw,
          MailEffect.successMsg "QA report sent."], Except.ok ())
    | Except.error e =>
        ([MailEffect.buildService "gmail" "v1" creds, MailEffect.gmailSend raw],
         Except.error e)

/-- An observable filesystem or API effect of the main page. -/
inductive AppEffect
  | mkdirBackup (dir : String)
  | fileWrite (path : String)
  | apiListProducts (merchantId : String)
  | successMsg (s : String)
deriving DecidableEq, Repr

/-- The backup directory constant of line 66. -/
def BACKUP_DIR : String := "backups"

/-- Line 67, `os.makedirs(BACKUP_DIR, exist_ok=True)`: the creation of the
backup directory at startup, the startup effect the fetch-action claim
refers to.  Startup has further file effects outside the scope of this
definition and of every claim: the logging setup of lines 23-27 writes
`app.log`, and line 45 dumps `client_secrets_temp.json` when the client
secrets come from the secret store. -/
def startupEffects : List AppEffect :=
  [AppEffect.mkdirBackup BACKUP_DIR]

/-- Lines 175-183, the `Fetch & Backup Feed` handler: list the products of
the selected merchant, normalise them, store two copies of the result as
the original and working snapshots, and report the count.  The body
contains no file write. -/
def fetchFeedHandler (ps : List RawProduct) (merchantId : String) (_s : Session) :
    Session × List AppEffect :=
  let df := normalizeProducts ps
  ({ df_old := some df, df := some df },
   [AppEffect.apiListProducts merchantId,
    AppEffect.successMsg ("Fetched " ++ toString df.length ++ " items.")])

/-- Concrete globals with an OpenAI key configured and the actual
(never executed) module state of `RATE_LIMIT_DELAY`. -/
def gWithKey : Globals :=
  { openaiApiKey := some "sk-test", rateLimitDelay := moduleRateLimitDelay }

/-- Concrete globals with no OpenAI key configured. -/
def gNoKey : Globals :=
  { openaiApiKey := none, rateLimitDelay := moduleRateLimitDelay }

/-- A concrete environment where every external call succeeds. -/
def oracleAllOk : Oracle :=
  { httpGet := fun _ => Except.ok { status := 200, text := "Comfortable running shoe" }
    visibleText := fun s => s
    completion := fun _ => Except.ok " Running Shoe " }

/-- A concrete environment where the fetch receives a 404 response whose
body still carries text, and the completion succeeds. -/
def oracle404 : Oracle :=
  { httpGet := fun _ => Except.ok { status := 404, text := "gone" }
    visibleText := fun s => s
    completion := fun _ => Except.ok "x" }

/-- A concrete environment where the fetch raises (timeout or network
failure). -/
def oracleFetchFail : Oracle :=
  { httpGet := fun _ => Except.error ()
    visibleText := fun s => s
    completion := fun _ => Except.ok "x" }

/-- A concrete mail environment with no recipient configured. -/
def envNoRecipient : MailEnv :=
  { emailTo := none
    mimeRaw := fun _ _ _ => ""
    sendResult := fun _ => Except.ok () }

/-- A concrete three-row working snapshot. -/
def rowP (pid t : String) : Row :=
  { product_id := pid, link := "", title := t, description := "d",
    productType := "p", googleProductCategory := "g" }

/-- Three concrete rows for the sync scenario. -/
def threeRows : List Row :=
  [rowP "P1" "A", rowP "P2" "B", rowP "P3" "C"]

/-- A concrete patch oracle that raises exactly on the second row. -/
def patchFailP2 : String → Except Unit Unit :=
  fun pid => if pid == "P2" then Except.error () else Except.ok ()

/-- A fetched product that carries all six fields. -/
def rawWithPT : RawProduct :=
  { id := some "P1", link := some "http://example.com/p1", title := some "Shoe",
    description := some "d", productType := some "Tops",
    googleProductCategory := some "g" }

/-- A fetched product that lacks `productType`: after `pd.json_normalize`
its cell in the (partially present) `productType` column is NaN, and
`df.get` keeps the existing column, NaN included. -/
def rawNoPT : RawProduct :=
  { id := some "P2", link := some "http://example.com/p2", title := some "Sock",
    description := some "d", productType := none,
    googleProductCategory := some "g" }

/-- A concrete fetched product list on which the normalised snapshot holds
a NaN cell. -/
def rawPairNaN : List RawProduct :=
  [rawWithPT, rawNoPT]

/-- The normalised row of `rawNoPT` inside `rawPairNaN`: NaN in the
partially present `productType` column. -/
def nRowP2 : NRow :=
  { product_id := Cell.str "P2", link := Cell.str "http://example.com/p2",
    title := Cell.str "Sock", description := Cell.str "d",
    productType := Cell.nan, googleProductCategory := Cell.str "g" }

/-! Helper lemmas shared by several claims. -/

/-- The Python slice agrees with `String.take`. -/
theorem pyStrTake_eq_take (s : String) (n : Nat) : pyStrTake s n = s.take n :=
  (String.take_eq s n).symm

/-- Taking a prefix of a string yields at most that many characters. -/
theorem length_pyStrTake_le (s : String) (n : Nat) : (pyStrTake s n).length ≤ n :=
  (s.1).length_take_le n

/-- The merged row keeps the join key of its left (old) row. -/
theorem mergeRows_product_id (a b : Row) :
    (mergeRows a b).product_id = a.product_id := rfl

/-- The filter condition of `diff_feed` on a merged pair is exactly the
tracked-attribute disagreement of the two rows. -/
theorem rowChanged_mergeRows (a b : Row) :
    rowChanged (mergeRows a b) = true ↔ trackedDiffer a b := by
  simp [rowChanged, mergeRows, trackedDiffer, Bool.or_eq_true, bne_iff_ne]
  tauto

/-- Overwriting a tracked attribute never touches the product id. -/
theorem setField_product_id (r : Row) (f : Field) (v : String) :
    (setField r f v).product_id = r.product_id := by
  cases f <;> rfl

/-- A single in-place cell assignment preserves the product id column. -/
theorem setAt_map_product_id (t : List Row) (i : Nat) (f : Field) (v : String) :
    (setAt t i f v).map Row.product_id = t.map Row.product_id := by
  induction t generalizing i with
  | nil => rfl
  | cons r rs ih =>
      cases i with
      | zero => simp [setAt, setField_product_id]
      | succ n => simp [setAt, ih]

/-- Any sequence of in-place cell assignments preserves the product id
column. -/
theorem foldl_setAt_map_product_id (assigns : List (Nat × Field × String)) (t : List Row) :
    (assigns.foldl (fun t p => setAt t p.1 p.2.1 p.2.2) t).map Row.product_id =
      t.map Row.product_id := by
  induction assigns generalizing t with
  | nil => rfl
  | cons p ps ih => rw [List.foldl_cons, ih, setAt_map_product_id]

/-- One `step` preserves equality of the two snapshots' product id
columns. -/
theorem step_preserves_pids (s : Session) (a : Action)
    (h : pids s.df = pids s.df_old) :
    pids (step s a).df = pids (step s a).df_old := by
  cases a with
  | fetch ps => rfl
  | optimize assigns =>
      cases hdf : s.df with
      | none => simpa [step, hdf] using h
      | some t =>
          rw [hdf] at h
          simp [step, hdf, pids, foldl_setAt_map_product_id] at h ⊢
          simpa [pids] using h
  | showReport => exact h
  | emailReport => exact h
  | sync => exact h

/-! Claim theorems. -/

/-- C2: for all row tables A and B, a row appears in `diff_feed A B` with a
given product id iff some row of A and some row of B both carry that id and
disagree on at least one of the four tracked attributes (strict
inequality).  The right-to-left emptiness direction of the claim follows:
when the id is absent from either table the right side is false, so no row
of the result carries it. -/
theorem diff_feed_mem_iff (A B : List Row) (pid : String) :
    (∃ d ∈ diff_feed A B, d.product_id = pid) ↔
      ∃ a ∈ A, ∃ b ∈ B, a.product_id = pid ∧ b.product_id = pid ∧ trackedDiffer a b := by
  constructor
  · rintro ⟨d, hd, hdp⟩
    rw [diff_feed, List.mem_filter] at hd
    obtain ⟨hmem, hchg⟩ := hd
    rw [mergeOn, List.mem_flatMap] at hmem
    obtain ⟨a, ha, hd2⟩ := hmem
    rw [List.mem_map] at hd2
    obtain ⟨b, hb, rfl⟩ := hd2
    rw [List.mem_filter] at hb
    obtain ⟨hbB, hbeq⟩ := hb
    have hba : b.product_id = a.product_id := by simpa using hbeq
    rw [mergeRows_product_id] at hdp
    exact ⟨a, ha, b, hbB, hdp, hba.trans hdp, (rowChanged_mergeRows a b).1 hchg⟩
  · rintro ⟨a, ha, b, hb, hap, hbp, hdiff⟩
    refine ⟨mergeRows a b, ?_, ?_⟩
    · rw [diff_feed, List.mem_filter]
      refine ⟨?_, (rowChanged_mergeRows a b).2 hdiff⟩
      rw [mergeOn, List.mem_flatMap]
      exact ⟨a, ha, List.mem_map_of_mem _
        (List.mem_filter.2 ⟨hb, by simp [hap, hbp]⟩)⟩
    · rw [mergeRows_product_id]; exact hap

/-- C3 (code bug): diffing a snapshot against itself does flag rows.  On
the reachable snapshot fetched from `rawPairNaN` — where `productType` is
present on P1 and absent on P2, so normalisation leaves NaN in the P2 cell
of that partially present column — `diff_feed(A, A)` returns the P2 row,
because the elementwise pandas `!=` holds between NaN and itself.  The
claim (spec property 1: no false positives on identical snapshots) says
the result is empty. -/
theorem diff_feed_nan_self_not_empty :
    diff_feedN (normalizeProductsN rawPairNaN) (normalizeProductsN rawPairNaN) =
      [nMergeRows nRowP2 nRowP2] := by
  decide

/-- C4: with no language-model credential configured, `ai_optimize` is a
strict identity on its second argument for every field name and URL, and
performs no fetch, no model call and no other side effect (the effect
trace is empty). -/
theorem ai_optimize_no_key (g : Globals) (o : Oracle) (field original url : String)
    (h : isTruthy g.openaiApiKey = false) :
    ai_optimize g o field original url = (Except.ok original, []) := by
  simp [ai_optimize, h]

/-- Witness for C4 with the key unset and every external call available. -/
theorem ai_optimize_no_key_witness :
    isTruthy gNoKey.openaiApiKey = false ∧
      ai_optimize gNoKey oracleAllOk "title" "Shoe" "http://example.com" =
        (Except.ok "Shoe", []) :=
  ⟨rfl, ai_optimize_no_key gNoKey oracleAllOk "title" "Shoe" "http://example.com" rfl⟩

/-- C1 (code bug): with a language-model credential configured,
`ai_optimize` propagates a `NameError` to its caller on every invocation —
even when the snippet fetch and the completion call succeed, and also when
the fetch fails — because the global `RATE_LIMIT_DELAY` consulted by
`time.sleep(RATE_LIMIT_DELAY)` on line 137 is never bound: its assignment
on line 55 sits inside the comment on the same line.  The claim says the
call returns the original value rather than raising. -/
theorem ai_optimize_unbound_delay_raises :
    (ai_optimize gWithKey oracleAllOk "title" "Shoe" "http://example.com").1 =
        Except.error PyErr.nameErr ∧
      (ai_optimize gWithKey oracleFetchFail "title" "Shoe" "http://example.com").1 =
        Except.error PyErr.nameErr :=
  ⟨rfl, rfl⟩

/-- C5 (code bug): the throttle delay constant is never read at startup —
the assignment of `RATE_LIMIT_DELAY` on line 55 is commented out, so the
module value is unbound — and an invocation of `ai_optimize` that reaches
the language-model stage performs no sleep at all (its effect trace
contains no sleep effect); it raises `NameError` instead of pausing. -/
theorem ai_optimize_never_sleeps :
    moduleRateLimitDelay = none ∧
      (ai_optimize gWithKey oracleAllOk "description" "Soft" "http://example.com").2.filter
          isSleep = [] ∧
      (ai_optimize gWithKey oracleAllOk "description" "Soft" "http://example.com").1 =
        Except.error PyErr.nameErr :=
  ⟨rfl, rfl, rfl⟩

/-- Counterexample for C6: the fetch of a non-2xx response does not yield
an empty snippet.  In an environment where the server answers status 404
with body `gone` (and text extraction is the identity on that body), the
snippet is `gone`, not the empty string the claim requires for a non-2xx
response: `requests.get` raises only on timeout or network failure, and
line 120 uses `resp.text` without any status check. -/
theorem fetchSnippet_non2xx_counterexample :
    oracle404.httpGet "http://example.com/gone" =
        Except.ok { status := 404, text := "gone" } ∧
      (fetchSnippet oracle404 "http://example.com/gone").1 = "gone" :=
  ⟨rfl, rfl⟩

/-- C6 as amended: the page-snippet fetch inside `ai_optimize` uses a
5-time-unit timeout; on a fetch exception (timeout or network failure) it
yields the empty snippet rather than propagating; on any received
response — whatever its status code — it yields exactly the first 1000
characters of the whitespace-joined visible text of the response body, so
at most 1000 characters. -/
theorem fetchSnippet_spec (o : Oracle) (url : String) :
    (fetchSnippet o url).2 = Effect.httpGet url 5 ∧
      (∀ e, o.httpGet url = Except.error e → (fetchSnippet o url).1 = "") ∧
      (∀ resp, o.httpGet url = Except.ok resp →
        (fetchSnippet o url).1 = (o.visibleText resp.text).take 1000 ∧
          (fetchSnippet o url).1.length ≤ 1000) := by
  refine ⟨rfl, ?_, ?_⟩
  · intro e he
    simp [fetchSnippet, he]
  · intro resp hresp
    refine ⟨by simp [fetchSnippet, hresp, pyStrTake_eq_take], ?_⟩
    simp only [fetchSnippet, hresp]
    exact length_pyStrTake_le (o.visibleText resp.text) 1000

/-- Witness for C6: the amended statement applied in a failing-fetch
environment and in a 404 environment. -/
theorem fetchSnippet_spec_witness :
    (fetchSnippet oracleFetchFail "http://example.com").1 = "" ∧
      (fetchSnippet oracle404 "http://example.com").1 = ("gone" : String).take 1000 :=
  ⟨(fetchSnippet_spec oracleFetchFail "http://example.com").2.1 () rfl,
   ((fetchSnippet_spec oracle404 "http://example.com").2.2
      { status := 404, text := "gone" } rfl).1⟩

/-- C7: in every reachable session state, the working snapshot carries
exactly the same product id column as the original snapshot — the fetch
action sets both snapshots to copies of one table, and the optimize action
only overwrites tracked attribute cells of existing rows; no action
inserts or deletes a row. -/
theorem session_pids_invariant (acts : List Action) :
    pids (runSession acts).df = pids (runSession acts).df_old := by
  have key : ∀ (l : List Action) (s : Session), pids s.df = pids s.df_old →
      pids (l.foldl step s).df = pids (l.foldl step s).df_old := by
    intro l
    induction l with
    | nil => intro s h; exact h
    | cons a rest ih =>
        intro s h
        exact ih (step s a) (step_preserves_pids s a h)
  exact key acts { df_old := none, df := none } rfl

/-- C8: when the patch oracle succeeds on the first k rows and raises on
row k, the sync action issues patch calls exactly for rows 0..k in
sequence (every row before the k-th already submitted and not rolled back,
no row after the k-th submitted) and ends with the propagated error, so no
full-success count is reported. -/
theorem sync_halts_at_failure (patch : String → Except Unit Unit) (rows : List Row)
    (k : Nat) (rk : Row)
    (hok : ∀ r ∈ rows.take k, patch r.product_id = Except.ok ())
    (hget : rows[k]? = some rk)
    (hfail : patch rk.product_id = Except.error ()) :
    syncAction patch rows = ((rows.take (k + 1)).map Row.product_id, Except.error ()) := by
  have main : ∀ (k : Nat) (rows : List Row) (rk : Row) (count : Nat),
      (∀ r ∈ rows.take k, patch r.product_id = Except.ok ()) →
      rows[k]? = some rk → patch rk.product_id = Except.error () →
      syncLoop patch rows count =
        ((rows.take (k + 1)).map Row.product_id, Except.error ()) := by
    intro k
    induction k with
    | zero =>
        intro rows rk count hok hget hfail
        cases rows with
        | nil => simp at hget
        | cons r rs =>
            simp at hget
            subst hget
            simp [syncLoop, hfail]
    | succ n ih =>
        intro rows rk count hok hget hfail
        cases rows with
        | nil => simp at hget
        | cons r rs =>
            have hr : patch r.product_id = Except.ok () := by
              apply hok
              simp [List.take_succ_cons]
            have hrest := ih rs rk (count + 1)
              (fun r' hr' => hok r' (by simp [List.take_succ_cons, hr']))
              (by simpa using hget) hfail
            simp [syncLoop, hr, hrest, List.take_succ_cons]
  exact main k rows rk 0 hok hget hfail

/-- Witness for C8: three rows whose second patch call raises — the calls
issued are exactly P1 then P2, and the result is the error, not a count. -/
theorem sync_halts_at_failure_witness :
    syncAction patchFailP2 threeRows = (["P1", "P2"], Except.error ()) := by
  have h := sync_halts_at_failure patchFailP2 threeRows 1 (rowP "P2" "B")
    (by decide) (by decide) (by decide)
  simpa using h

/-- C9: with no recipient configured, `send_email` reports the
configuration error and returns normally: its effect trace is exactly the
error message — no mail client built, no send attempted — and no exception
is raised, for every HTML fragment and credential. -/
theorem send_email_no_recipient (env : MailEnv) (html creds : String)
    (h : isTruthy env.emailTo = false) :
    send_email env html creds =
      ([MailEffect.errorMsg "EMAIL_TO not set"], Except.ok ()) := by
  simp [send_email, h]

/-- Witness for C9 with the recipient unset. -/
theorem send_email_no_recipient_witness :
    isTruthy envNoRecipient.emailTo = false ∧
      send_email envNoRecipient "<table></table>" "creds" =
        ([MailEffect.errorMsg "EMAIL_TO not set"], Except.ok ()) :=
  ⟨rfl, send_email_no_recipient envNoRecipient "<table></table>" "creds" rfl⟩

/-- C10: the fetch-and-backup action writes no backup file — its effect
trace is exactly the product-list API call and the success message, with
no file write — and it leaves the original and working snapshots equal
(two copies of the same normalised table); the only directory creation
happens at startup. -/
theorem fetch_backup_no_file_write (ps : List RawProduct) (merchantId : String) (s : Session) :
    (fetchFeedHandler ps merchantId s).1.df_old = (fetchFeedHandler ps merchantId s).1.df ∧
      (fetchFeedHandler ps merchantId s).2 =
        [AppEffect.apiListProducts merchantId,
         AppEffect.successMsg
           ("Fetched " ++ toString (normalizeProducts ps).length ++ " items.")] ∧
      startupEffects = [AppEffect.mkdirBackup BACKUP_DIR] :=
  ⟨rfl, rfl, rfl⟩

end GmcEditor
